import Mathlib

/-!
Shallow embedding of the client-side scripts of the `kciter/talks`
slide-hosting front-end:

* `src/public/js/theme.js`  — `ThemeManager` (dark/light theme toggle
  with persistence and OS-preference syncing);
* `src/docs/js/viewer.js`   — `SlidefViewer` (paged slide viewer:
  navigation, clamping, progress bar, thumbnails, modals, wheel and
  keyboard handling, URL synchronisation);
* `src/docs/js/index.js`    — `SlideIndex` (deck listing and the
  dev-mode import flow with its failure-recovery re-poll).

JavaScript numbers that can be `NaN` are modelled as `Option Int`
(`none` = `NaN`); all arithmetic the scripts perform on these values is
integral except the progress percentage and the progress-bar fraction,
which are modelled with `Rat`.  DOM elements are modelled as the fields
of explicit state records; every function below transcribes the body of
the correspondingly named JavaScript method.
-/

namespace Talks

/-! ### JavaScript primitives -/

/-- `a || b` for a nullable string: `null` and `""` are falsy. -/
def jsOrStr : Option String → String → String
  | none, d => d
  | some s, d => if s = "" then d else s

/-- Truthiness of a nullable string (`null` and `""` are falsy). -/
def strTruthy : Option String → Bool
  | none => false
  | some s => s ≠ ""

/-- Longest decimal-digit prefix of a character list, as a number;
`none` when no digit is present (`seen` records whether a digit has
been consumed already). -/
def digitsVal : List Char → Nat → Bool → Option Nat
  | [], acc, seen => if seen then some acc else none
  | c :: rest, acc, seen =>
      if c.isDigit then digitsVal rest (acc * 10 + (c.toNat - 48)) true
      else if seen then some acc else none

/-- `parseInt(s, 10)`: skip leading whitespace, read an optional sign
and then the longest digit prefix; `none` models `NaN`. -/
def parseIntJS (s : String) : Option Int :=
  let cs := s.data.dropWhile (fun c => c = ' ' ∨ c = '\t' ∨ c = '\n' ∨ c = '\r')
  match cs with
  | '-' :: rest => (digitsVal rest 0 false).map (fun n => -(n : Int))
  | '+' :: rest => (digitsVal rest 0 false).map (fun n => (n : Int))
  | _ => (digitsVal cs 0 false).map (fun n => (n : Int))

/-- `Math.max(1, Math.min(n, total))` with JavaScript `NaN`
propagation: `Math.min`/`Math.max` return `NaN` when an argument is
`NaN`. -/
def jsClamp (n : Option Int) (total : Int) : Option Int :=
  n.map (fun x => max 1 (min x total))

/-- Subtraction on a possibly-`NaN` number (`NaN - k = NaN`). -/
def jsSub (n : Option Int) (k : Int) : Option Int :=
  n.map (fun x => x - k)

/-- Addition on a possibly-`NaN` number (`NaN + k = NaN`). -/
def jsAdd (n : Option Int) (k : Int) : Option Int :=
  n.map (fun x => x + k)

/-- `n > k` on a possibly-`NaN` left operand: every comparison with
`NaN` is false. -/
def jsGt (n : Option Int) (k : Int) : Bool :=
  match n with
  | none => false
  | some x => x > k

/-- `n < k` on a possibly-`NaN` left operand: every comparison with
`NaN` is false. -/
def jsLt (n : Option Int) (k : Int) : Bool :=
  match n with
  | none => false
  | some x => x < k

/-- `String(n)` for a possibly-`NaN` integral number. -/
def jsNumToString : Option Int → String
  | none => "NaN"
  | some k => toString k

/-- `array[i]` for a possibly-`NaN` index: out-of-range and `NaN`
indices give `undefined`. -/
def jsIndex (l : List String) (i : Option Int) : Option String :=
  match i with
  | none => none
  | some k => if k < 0 then none else l.get? k.toNat

/-- `String.prototype.padStart(3, "0")`. -/
def padStart3 (s : String) : String :=
  if s.length ≥ 3 then s
  else String.mk (List.replicate (3 - s.length) '0') ++ s

/-! ### `theme.js` — `ThemeManager` -/

/-- State of the theme subsystem: the in-memory `currentTheme` field,
the `localStorage` entry under `slidef-theme`, and the document's
`data-theme` attribute (`none` when the attribute has never been
set). -/
structure ThemeState where
  currentTheme : String
  stored : Option String
  applied : Option String
  deriving Repr, DecidableEq

/-- `ThemeManager.apply`: writes `currentTheme` into the document's
`data-theme` attribute (icon updates are pure presentation). -/
def ThemeManager.apply (s : ThemeState) : ThemeState :=
  { s with applied := some s.currentTheme }

/-- `ThemeManager.setStoredTheme`. -/
def ThemeManager.setStoredTheme (t : String) (s : ThemeState) : ThemeState :=
  { s with stored := some t }

/-- `ThemeManager.toggle`: flip `currentTheme` (`"dark"` becomes
`"light"`, anything else becomes `"dark"`), persist it, re-apply. -/
def ThemeManager.toggle (s : ThemeState) : ThemeState :=
  let c := if s.currentTheme = "dark" then "light" else "dark"
  ThemeManager.apply (ThemeManager.setStoredTheme c { s with currentTheme := c })

/-- The `matchMedia("(prefers-color-scheme: dark)")` change listener:
when no truthy value is persisted, adopt the OS preference and
re-apply; otherwise do nothing. -/
def handleOsChange (m : Bool) (s : ThemeState) : ThemeState :=
  if strTruthy s.stored then s
  else
    ThemeManager.apply
      { s with currentTheme := if m then "dark" else "light" }

/-- `ThemeManager` constructor: stored preference if present (truthy),
else the OS preference, then `apply()`. -/
def ThemeManager.initState (stored : Option String) (osDark : Bool) : ThemeState :=
  ThemeManager.apply
    { currentTheme := jsOrStr stored (if osDark then "dark" else "light")
      stored := stored
      applied := none }

/-! ### `viewer.js` — `SlidefViewer` -/

/-- Per-deck `metadata.json` payload (`title` and `format` may be
absent). -/
structure Metadata where
  name : String
  title : Option String
  pageCount : Int
  format : Option String
  deriving Repr, DecidableEq

/-- Observable state of the viewer: the `SlidefViewer` instance fields
together with the DOM/URL pieces its methods mutate.  `currentSlide` is
a JavaScript number (`none` = `NaN`); `urlPage` is the URL's `page`
query parameter; the three image slots carry their `src` and display
state. -/
structure ViewerState where
  currentSlide : Option Int
  totalSlides : Int
  slideImages : List String
  urlPage : Option String
  progressWidth : Option Rat
  slidePrevSrc : Option String
  slideCurrentSrc : Option String
  slideNextSrc : Option String
  slidePrevVisible : Bool
  slideNextVisible : Bool
  navPrevVisible : Bool
  navNextVisible : Bool
  docTitle : String
  metaTitle : String
  scrollMode : Bool
  overviewOpen : Bool
  shareOpen : Bool
  wheelThrottle : Bool
  deriving Repr, DecidableEq

namespace SlidefViewer

/-- `showSlide(slideNumber, updateHistory)`: clamp into
`[1, totalSlides]` (with `NaN` propagation), refresh the three image
slots and their visibility, recompute the progress percentage, the
edge-aware nav areas, the URL `page` parameter (when `updateHistory`)
and the document title. -/
def showSlide (slideNumber : Option Int) (updateHistory : Bool)
    (s : ViewerState) : ViewerState :=
  let cur := jsClamp slideNumber s.totalSlides
  let s := { s with currentSlide := cur }
  let s := { s with slideCurrentSrc := jsIndex s.slideImages (jsSub cur 1) }
  let s :=
    if jsGt cur 1 then
      { s with slidePrevSrc := jsIndex s.slideImages (jsSub cur 2)
               slidePrevVisible := true }
    else { s with slidePrevVisible := false }
  let s :=
    if jsLt cur s.totalSlides then
      { s with slideNextSrc := jsIndex s.slideImages cur
               slideNextVisible := true }
    else { s with slideNextVisible := false }
  let progress := cur.map (fun c => (c : Rat) / (s.totalSlides : Rat) * 100)
  let s := { s with progressWidth := progress }
  let s := { s with navPrevVisible := if cur = some 1 then false else true }
  let s := { s with navNextVisible := if cur = some s.totalSlides then false else true }
  let s :=
    if updateHistory then { s with urlPage := some (jsNumToString cur) } else s
  { s with docTitle := s.metaTitle ++ " - Slide " ++ jsNumToString cur }

/-- `goToSlide(n)` = `showSlide(n, true)`. -/
def goToSlide (n : Option Int) (s : ViewerState) : ViewerState :=
  showSlide n true s

/-- `previousSlide()`: only when `currentSlide > 1`. -/
def previousSlide (s : ViewerState) : ViewerState :=
  if jsGt s.currentSlide 1 then goToSlide (jsSub s.currentSlide 1) s else s

/-- `nextSlide()`: only when `currentSlide < totalSlides`. -/
def nextSlide (s : ViewerState) : ViewerState :=
  if jsLt s.currentSlide s.totalSlides then goToSlide (jsAdd s.currentSlide 1) s
  else s

/-- `closeOverviewModal()`. -/
def closeOverviewModal (s : ViewerState) : ViewerState :=
  { s with overviewOpen := false }

/-- `closeShareModal()`. -/
def closeShareModal (s : ViewerState) : ViewerState :=
  { s with shareOpen := false }

/-- The keys `handleKeyPress` inspects. -/
inductive Key where
  | escape | arrowLeft | arrowUp | pageUp
  | arrowRight | arrowDown | pageDown | space
  | home | endKey | other
  deriving Repr, DecidableEq

/-- `handleKeyPress(e)`: `Escape` closes the overview modal if open,
else the share modal if open; the navigation keys switch on `e.key`
unconditionally. -/
def handleKeyPress (k : Key) (s : ViewerState) : ViewerState :=
  if k = Key.escape then
    if s.overviewOpen then closeOverviewModal s
    else if s.shareOpen then closeShareModal s
    else s
  else
    match k with
    | Key.arrowLeft | Key.arrowUp | Key.pageUp => previousSlide s
    | Key.arrowRight | Key.arrowDown | Key.pageDown | Key.space => nextSlide s
    | Key.home => goToSlide (some 1) s
    | Key.endKey => goToSlide (some s.totalSlides) s
    | _ => s

/-- `handleWheel(e)`: ignored in scroll mode or while the overview
modal is open; otherwise throttled by `wheelThrottleTimer`, then
navigates by the sign of `deltaY`. -/
def handleWheel (deltaY : Int) (s : ViewerState) : ViewerState :=
  if s.scrollMode ∨ s.overviewOpen then s
  else if s.wheelThrottle then s
  else
    let s := { s with wheelThrottle := true }
    if deltaY > 0 then nextSlide s
    else if deltaY < 0 then previousSlide s
    else s

/-- Target page of `handleProgressClick`: `percentage = x / width`,
then `Math.max(1, Math.min(totalSlides, Math.ceil(percentage *
totalSlides)))`. -/
def progressClickTarget (x width : Rat) (totalSlides : Int) : Int :=
  max 1 (min totalSlides ⌈x / width * (totalSlides : Rat)⌉)

/-- `handleProgressClick(e)` with the click at offset `x` on a bar of
width `width`: computes the target page and navigates there. -/
def handleProgressClick (x width : Rat) (s : ViewerState) : ViewerState :=
  goToSlide (some (progressClickTarget x width s.totalSlides)) s

/-- Target page of `showThumbnail`: `percentage = x / width`, then
`Math.max(1, Math.min(totalSlides, Math.ceil(percentage *
totalSlides)))` — transcribed from `showThumbnail`'s own copy of the
computation. -/
def showThumbnailTarget (x width : Rat) (totalSlides : Int) : Int :=
  max 1 (min totalSlides ⌈x / width * (totalSlides : Rat)⌉)

/-- The image URL list built by `loadMetadata`:
`{base}/slides/{name}/images/slide-{NNN}.{format}` for pages
`1 … pageCount`, with 3-digit zero-padded numbers and format defaulting
to `"webp"`. -/
def slideImageList (baseUrl name : String) (pageCount : Int)
    (format : Option String) : List String :=
  let fmt := jsOrStr format "webp"
  (List.range pageCount.toNat).map (fun i =>
    baseUrl ++ "/slides/" ++ name ++ "/images/slide-" ++
      padStart3 (toString (i + 1)) ++ "." ++ fmt)

/-- `loadMetadata()` (after a successful fetch): record
`totalSlides = pageCount`, remember the title (`title || name`) and
precompute the image URLs. -/
def loadMetadataStep (baseUrl : String) (meta : Metadata)
    (s : ViewerState) : ViewerState :=
  { s with totalSlides := meta.pageCount
           metaTitle := jsOrStr meta.title meta.name
           slideImages := slideImageList baseUrl meta.name meta.pageCount meta.format }

/-- The `SlidefViewer` constructor's state initialisation:
`currentSlide = parseInt(page || "1", 10)`, everything else at its
pre-`init` default; `urlPage` mirrors the URL's `page` parameter. -/
def constructorState (pageParam : Option String) : ViewerState :=
  { currentSlide := parseIntJS (jsOrStr pageParam "1")
    totalSlides := 0
    slideImages := []
    urlPage := pageParam
    progressWidth := none
    slidePrevSrc := none
    slideCurrentSrc := none
    slideNextSrc := none
    slidePrevVisible := true
    slideNextVisible := true
    navPrevVisible := true
    navNextVisible := true
    docTitle := ""
    metaTitle := ""
    scrollMode := false
    overviewOpen := false
    shareOpen := false
    wheelThrottle := false }

/-- `init()` after a successful `loadMetadata()`: show the slide from
the constructor's `currentSlide`, then (re-reading the URL, which
`showSlide` has already rewritten) add `page` if still missing, then
enable scroll mode when the viewport is narrow or `mode=scroll`. -/
def initViewer (pageParam modeParam : Option String) (narrowViewport : Bool)
    (baseUrl : String) (meta : Metadata) : ViewerState :=
  let s := constructorState pageParam
  let s := loadMetadataStep baseUrl meta s
  let s := showSlide s.currentSlide true s
  let s :=
    if s.urlPage = none then { s with urlPage := some (jsNumToString s.currentSlide) }
    else s
  if narrowViewport ∨ modeParam = some "scroll" then { s with scrollMode := true }
  else s

end SlidefViewer

/-! ### `index.js` — `SlideIndex` -/

/-- A deck entry of the listing (only the fields the import flow
touches matter here). -/
structure SlideSummary where
  name : String
  deriving Repr, DecidableEq

/-- Observable state of the index page around the import flow: the
modal with its form/progress panes, the rendered deck list (or
the empty-state view), the pending blocking alert, and the
`isImporting` live-reload guard. -/
structure IndexState where
  modalOpen : Bool
  formVisible : Bool
  progressVisible : Bool
  progressMessage : String
  renderedSlides : List SlideSummary
  containerVisible : Bool
  emptyStateVisible : Bool
  alertMsg : Option String
  isImporting : Bool
  deriving Repr, DecidableEq

namespace SlideIndex

/-- `showEmptyState()`. -/
def showEmptyState (s : IndexState) : IndexState :=
  { s with emptyStateVisible := true, containerVisible := false }

/-- `renderSlides(slides)`: the empty list shows the empty-state view;
otherwise the container is shown and its contents replaced. -/
def renderSlides (slides : List SlideSummary) (s : IndexState) : IndexState :=
  if slides.length = 0 then showEmptyState s
  else
    { s with emptyStateVisible := false
             containerVisible := true
             renderedSlides := slides }

/-- `closeImportModal()`. -/
def closeImportModal (s : IndexState) : IndexState :=
  { s with modalOpen := false }

/-- `handleImport()`'s preamble: hide the form, show the progress pane,
set the importing guard. -/
def importStart (s : IndexState) : IndexState :=
  { s with formVisible := false
           progressVisible := true
           progressMessage := "Importing PDF..."
           isImporting := true }

/-- The `catch` branch of `handleImport()` with the outer error message
`errMsg`: after the delay, re-poll the listing; when `loadSlides`
succeeds the list is re-rendered and the modal closed; when it fails
the error is alerted and the form restored.  Either way the importing
guard is cleared. -/
def importFailureRecovery (errMsg : String)
    (repoll : Except String (List SlideSummary)) (s : IndexState) : IndexState :=
  let s := { s with progressMessage := "Checking import status..." }
  match repoll with
  | Except.ok slides =>
      let s := renderSlides slides s
      let s := closeImportModal s
      { s with isImporting := false }
  | Except.error _ =>
      let s := { s with alertMsg := some ("Import failed: " ++ errMsg)
                        formVisible := true
                        progressVisible := false }
      { s with isImporting := false }

/-- `handleImport()` in full: the preamble, then either the success
path (success message, guard cleared, modal closed, listing reloaded)
or the failure-recovery path. -/
def handleImport (importResult : Except String Unit)
    (repoll : Except String (List SlideSummary)) (s : IndexState) : IndexState :=
  let s := importStart s
  match importResult with
  | Except.ok _ =>
      let s := { s with progressMessage := "Import successful!", isImporting := false }
      let s := closeImportModal s
      match repoll with
      | Except.ok slides => renderSlides slides s
      | Except.error _ => s
  | Except.error errMsg => importFailureRecovery errMsg repoll s

end SlideIndex

/-! ### Theorems about `theme.js` -/

/-- C4: on an OS dark-mode preference change, if no theme preference is
persisted the applied theme (and `currentTheme`) follows the new OS
preference; if a persisted user preference exists, the whole theme
state is left unchanged. -/
theorem c4_os_change_respects_explicit_choice (s : ThemeState) (m : Bool) :
    (s.stored = none →
      (handleOsChange m s).applied = some (if m then "dark" else "light") ∧
      (handleOsChange m s).currentTheme = (if m then "dark" else "light")) ∧
    (∀ v, s.stored = some v → (v = "dark" ∨ v = "light") →
      handleOsChange m s = s) := by
  constructor
  · intro h
    simp [handleOsChange, strTruthy, h, ThemeManager.apply]
  · intro v hv hvv
    have ht : strTruthy s.stored = true := by
      rcases hvv with h | h <;> simp [strTruthy, hv, h]
    simp [handleOsChange, ht]

/-- Witness for C4 at concrete states: with nothing persisted the OS
change to dark applies `"dark"`; with `"dark"` persisted an OS change
to light leaves the state untouched. -/
theorem c4_witness :
    (handleOsChange true
        { currentTheme := "light", stored := none, applied := some "light" }).applied
      = some "dark" ∧
    handleOsChange false
        { currentTheme := "dark", stored := some "dark", applied := some "dark" }
      = { currentTheme := "dark", stored := some "dark", applied := some "dark" } := by
  constructor
  · exact ((c4_os_change_respects_explicit_choice _ true).1 rfl).1
  · exact (c4_os_change_respects_explicit_choice _ false).2 "dark" rfl (Or.inl rfl)

/-- C5 counterexample: starting from applied theme `"dark"` with no
persisted value, toggling twice does not restore the original state —
the persisted value has become `"dark"` where it was absent. -/
theorem c5_counterexample :
    ¬ ((ThemeManager.toggle (ThemeManager.toggle
          { currentTheme := "dark", stored := none, applied := some "dark" })).applied
        = some "dark" ∧
       (ThemeManager.toggle (ThemeManager.toggle
          { currentTheme := "dark", stored := none, applied := some "dark" })).stored
        = none) := by
  decide

/-- C5 (amended): for every starting state whose current theme is
`"dark"` or `"light"`, whose persisted value equals it and whose
applied attribute equals it, invoking `toggle()` twice restores the
entire original state. -/
theorem c5_double_toggle_restores (s : ThemeState)
    (h1 : s.currentTheme = "dark" ∨ s.currentTheme = "light")
    (h2 : s.stored = some s.currentTheme)
    (h3 : s.applied = some s.currentTheme) :
    ThemeManager.toggle (ThemeManager.toggle s) = s := by
  obtain ⟨c, st, ap⟩ := s
  simp only at h2 h3
  subst h2; subst h3
  rcases h1 with h | h <;> simp only at h <;> subst h <;>
    simp [ThemeManager.toggle, ThemeManager.apply, ThemeManager.setStoredTheme]

/-- Witness for C5 (amended) at the fully-dark state. -/
theorem c5_witness :
    ThemeManager.toggle (ThemeManager.toggle
      { currentTheme := "dark", stored := some "dark", applied := some "dark" }) =
      { currentTheme := "dark", stored := some "dark", applied := some "dark" } :=
  c5_double_toggle_restores _ (Or.inl rfl) rfl rfl

/-- C10: after any `toggle()` the current theme is exactly `"dark"` or
`"light"`, the persisted value and the applied attribute both equal it,
and any prior value other than `"dark"` toggles to `"dark"`. -/
theorem c10_toggle_invariant (s : ThemeState) :
    ((ThemeManager.toggle s).currentTheme = "dark" ∨
      (ThemeManager.toggle s).currentTheme = "light") ∧
    (ThemeManager.toggle s).stored = some (ThemeManager.toggle s).currentTheme ∧
    (ThemeManager.toggle s).applied = some (ThemeManager.toggle s).currentTheme ∧
    (s.currentTheme ≠ "dark" → (ThemeManager.toggle s).currentTheme = "dark") := by
  by_cases h : s.currentTheme = "dark" <;>
    simp [ThemeManager.toggle, ThemeManager.apply, ThemeManager.setStoredTheme, h]

/-- Witness for C10: a corrupt stored theme `"blue"` toggles to
`"dark"`. -/
theorem c10_witness :
    (ThemeManager.toggle
      { currentTheme := "blue", stored := some "blue", applied := some "blue" }).currentTheme
      = "dark" :=
  (c10_toggle_invariant _).2.2.2 (by decide)

/-! ### Theorems about `viewer.js` -/

/-- A viewer state with the given slide position, deck size, image
list and mode/modal flags; the remaining fields at arbitrary fixed
values (used to instantiate the viewer theorems). -/
def mkViewer (cur : Option Int) (total : Int) (images : List String)
    (scroll overview share throttle : Bool) : ViewerState :=
  { currentSlide := cur
    totalSlides := total
    slideImages := images
    urlPage := none
    progressWidth := none
    slidePrevSrc := none
    slideCurrentSrc := none
    slideNextSrc := none
    slidePrevVisible := true
    slideNextVisible := true
    navPrevVisible := true
    navNextVisible := true
    docTitle := ""
    metaTitle := "t"
    scrollMode := scroll
    overviewOpen := overview
    shareOpen := share
    wheelThrottle := throttle }

/-- `showSlide` always stores the clamped slide number. -/
theorem showSlide_currentSlide (n : Option Int) (u : Bool) (s : ViewerState) :
    (SlidefViewer.showSlide n u s).currentSlide = jsClamp n s.totalSlides := by
  simp only [SlidefViewer.showSlide]
  split_ifs <;> rfl

/-- `showSlide` recomputes the progress width from the clamped slide
number. -/
theorem showSlide_progressWidth (n : Option Int) (u : Bool) (s : ViewerState) :
    (SlidefViewer.showSlide n u s).progressWidth =
      (jsClamp n s.totalSlides).map
        (fun c => (c : Rat) / (s.totalSlides : Rat) * 100) := by
  simp only [SlidefViewer.showSlide]
  split_ifs <;> rfl

/-- `showSlide` with history update writes the stringified clamped
slide number into the URL's `page` parameter. -/
theorem showSlide_urlPage (n : Option Int) (s : ViewerState) :
    (SlidefViewer.showSlide n true s).urlPage =
      some (jsNumToString (jsClamp n s.totalSlides)) := by
  simp only [SlidefViewer.showSlide]
  split_ifs <;> rfl

/-- C8: in paged mode, navigating past either edge is a no-op —
`previousSlide` at slide 1 and `nextSlide` at the last slide leave the
entire viewer state unchanged. -/
theorem c8_edge_navigation_noop (s : ViewerState) :
    (s.currentSlide = some 1 → SlidefViewer.previousSlide s = s) ∧
    (s.currentSlide = some s.totalSlides → SlidefViewer.nextSlide s = s) := by
  constructor
  · intro h
    simp [SlidefViewer.previousSlide, jsGt, h]
  · intro h
    simp [SlidefViewer.nextSlide, jsLt, h]

/-- Witness for C8 on a one-page deck at slide 1: both edge
navigations leave the state unchanged. -/
theorem c8_witness :
    SlidefViewer.previousSlide (mkViewer (some 1) 1 ["a"] false false false false)
      = mkViewer (some 1) 1 ["a"] false false false false ∧
    SlidefViewer.nextSlide (mkViewer (some 1) 1 ["a"] false false false false)
      = mkViewer (some 1) 1 ["a"] false false false false :=
  ⟨(c8_edge_navigation_noop _).1 rfl, (c8_edge_navigation_noop _).2 rfl⟩

/-- C9: for every cursor offset, the page shown by the hover thumbnail
preview equals the page a progress-bar click at the same offset would
navigate to — the two target computations agree. -/
theorem c9_thumbnail_matches_click (x width : Rat) (totalSlides : Int) :
    SlidefViewer.showThumbnailTarget x width totalSlides =
      SlidefViewer.progressClickTarget x width totalSlides := rfl

/-- C3: a progress-bar click at offset `x` on a bar of positive width
navigates to `ceil(x/width × totalSlides)` clamped to
`[1, totalSlides]`. -/
theorem c3_progress_click (x width : Rat) (s : ViewerState)
    (ht : 1 ≤ s.totalSlides) (_hw : 0 < width) :
    (SlidefViewer.handleProgressClick x width s).currentSlide
      = some (max 1 (min s.totalSlides ⌈x / width * (s.totalSlides : Rat)⌉)) := by
  rw [SlidefViewer.handleProgressClick, SlidefViewer.goToSlide,
    showSlide_currentSlide]
  simp only [jsClamp, SlidefViewer.progressClickTarget, Option.map_some']
  congr 1
  omega

/-- Witness for C3, the spec's scenario: a click at fraction `0.42` on
a 10-page deck navigates to page 5. -/
theorem c3_witness :
    (SlidefViewer.handleProgressClick (42 / 100) 1
        (mkViewer (some 1) 10 [] false false false false)).currentSlide
      = some 5 := by
  have h := c3_progress_click (42 / 100) 1
    (mkViewer (some 1) 10 [] false false false false) (by decide) (by decide)
  rw [h]
  have hc : ⌈(21 / 5 : Rat)⌉ = (5 : Int) := by
    rw [Int.ceil_eq_iff]
    constructor <;> norm_num
  norm_num [mkViewer, hc]

/-- `init()` leaves `currentSlide` at the clamp of the parsed `page`
parameter against the metadata's page count. -/
theorem initViewer_currentSlide (pp mp : Option String) (narrow : Bool)
    (base : String) (meta : Metadata) :
    (SlidefViewer.initViewer pp mp narrow base meta).currentSlide
      = jsClamp (parseIntJS (jsOrStr pp "1")) meta.pageCount := by
  simp only [SlidefViewer.initViewer]
  split_ifs <;>
    simp [showSlide_currentSlide, SlidefViewer.loadMetadataStep,
      SlidefViewer.constructorState]

/-- `init()` leaves the URL's `page` parameter at the stringified
clamped slide number. -/
theorem initViewer_urlPage (pp mp : Option String) (narrow : Bool)
    (base : String) (meta : Metadata) :
    (SlidefViewer.initViewer pp mp narrow base meta).urlPage
      = some (jsNumToString (jsClamp (parseIntJS (jsOrStr pp "1")) meta.pageCount)) := by
  simp only [SlidefViewer.initViewer]
  split_ifs <;>
    simp_all [showSlide_urlPage, SlidefViewer.loadMetadataStep,
      SlidefViewer.constructorState]

/-- C1 counterexample: with the non-numeric initial `page` parameter
`"abc"` on a 10-page deck, after `init()`'s URL-syncing `showSlide` the
in-memory slide is `NaN` — not clamped into `[1, 10]` — and the URL's
`page` parameter reads `"NaN"`. -/
theorem c1_counterexample :
    (SlidefViewer.initViewer (some "abc") none false ""
        { name := "deck", title := none, pageCount := 10, format := none }).currentSlide
      = none ∧
    (SlidefViewer.initViewer (some "abc") none false ""
        { name := "deck", title := none, pageCount := 10, format := none }).urlPage
      = some "NaN" := by
  constructor <;> rfl

/-- C1 (amended): whenever the initial `page` parameter parses to a
number, after `init()` the in-memory slide is clamped to
`[1, pageCount]`; after `init()` (for any initial `page` value) and
after every `showSlide` with history update the URL's `page` parameter
is the stringified in-memory slide; and for every `n` in
`[1, totalSlides]`, `goToSlide(n)` yields `currentSlide = n`, progress
width `n/totalSlides*100` and URL `page = n`. -/
theorem c1_clamp_and_url_sync (pp mp : Option String) (narrow : Bool)
    (base : String) (meta : Metadata) (s : ViewerState) (n k : Int)
    (hpc : 1 ≤ meta.pageCount)
    (hk : parseIntJS (jsOrStr pp "1") = some k)
    (_hs : 1 ≤ s.totalSlides) (hn1 : 1 ≤ n) (hn2 : n ≤ s.totalSlides) :
    (∃ m, (SlidefViewer.initViewer pp mp narrow base meta).currentSlide = some m ∧
      1 ≤ m ∧ m ≤ meta.pageCount) ∧
    (SlidefViewer.initViewer pp mp narrow base meta).urlPage
      = some (jsNumToString
          (SlidefViewer.initViewer pp mp narrow base meta).currentSlide) ∧
    (∀ (num : Option Int) (st : ViewerState),
      (SlidefViewer.showSlide num true st).urlPage
        = some (jsNumToString (SlidefViewer.showSlide num true st).currentSlide)) ∧
    (SlidefViewer.goToSlide (some n) s).currentSlide = some n ∧
    (SlidefViewer.goToSlide (some n) s).progressWidth
      = some ((n : Rat) / (s.totalSlides : Rat) * 100) ∧
    (SlidefViewer.goToSlide (some n) s).urlPage = some (toString n) := by
  have hclamp : jsClamp (some n) s.totalSlides = some n := by
    simp only [jsClamp, Option.map_some']
    congr 1
    omega
  refine ⟨⟨max 1 (min k meta.pageCount), ?_, ?_, ?_⟩, ?_, ?_, ?_, ?_, ?_⟩
  · rw [initViewer_currentSlide, hk]
    rfl
  · omega
  · omega
  · rw [initViewer_urlPage, initViewer_currentSlide]
  · intro num st
    rw [showSlide_urlPage, showSlide_currentSlide]
  · rw [SlidefViewer.goToSlide, showSlide_currentSlide, hclamp]
  · rw [SlidefViewer.goToSlide, showSlide_progressWidth, hclamp]
    rfl
  · rw [SlidefViewer.goToSlide, showSlide_urlPage, hclamp]
    rfl

/-- Witness for C1 (amended): on a 3-page deck, `goToSlide(2)` puts the
viewer on slide 2. -/
theorem c1_witness :
    (SlidefViewer.goToSlide (some 2)
        (mkViewer (some 1) 3 [] false false false false)).currentSlide = some 2 :=
  (c1_clamp_and_url_sync none none false ""
    { name := "d", title := none, pageCount := 3, format := none }
    (mkViewer (some 1) 3 [] false false false false) 2 1
    (by decide) rfl (by decide) (by decide) (by decide)).2.2.2.1

/-- C2 counterexample: with the share modal open (and scroll mode off),
both an `ArrowRight` key press and a downward wheel event still advance
the slide from 2 to 3 — keyboard and wheel navigation are not
suppressed by the open share modal. -/
theorem c2_counterexample :
    (mkViewer (some 2) 10 [] false false true false).shareOpen = true ∧
    (SlidefViewer.handleKeyPress SlidefViewer.Key.arrowRight
        (mkViewer (some 2) 10 [] false false true false)).currentSlide = some 3 ∧
    (SlidefViewer.handleWheel 5
        (mkViewer (some 2) 10 [] false false true false)).currentSlide = some 3 := by
  decide

/-- C2 (amended): wheel navigation is suppressed while in scroll mode
or while the overview modal is open (the share modal does not suppress
it); Escape closes the topmost open modal (overview before share)
without changing the slide; the navigation keys dispatch to
`previousSlide`/`nextSlide`/`goToSlide` regardless of scroll mode and
open modals. -/
theorem c2_input_suppression (s : ViewerState) (dy : Int) :
    (s.scrollMode = true ∨ s.overviewOpen = true →
      SlidefViewer.handleWheel dy s = s) ∧
    (s.overviewOpen = true →
      SlidefViewer.handleKeyPress SlidefViewer.Key.escape s
        = SlidefViewer.closeOverviewModal s ∧
      (SlidefViewer.handleKeyPress SlidefViewer.Key.escape s).currentSlide
        = s.currentSlide) ∧
    (s.overviewOpen = false → s.shareOpen = true →
      SlidefViewer.handleKeyPress SlidefViewer.Key.escape s
        = SlidefViewer.closeShareModal s ∧
      (SlidefViewer.handleKeyPress SlidefViewer.Key.escape s).currentSlide
        = s.currentSlide) ∧
    SlidefViewer.handleKeyPress SlidefViewer.Key.arrowRight s
      = SlidefViewer.nextSlide s ∧
    SlidefViewer.handleKeyPress SlidefViewer.Key.arrowLeft s
      = SlidefViewer.previousSlide s ∧
    SlidefViewer.handleKeyPress SlidefViewer.Key.space s
      = SlidefViewer.nextSlide s ∧
    SlidefViewer.handleKeyPress SlidefViewer.Key.home s
      = SlidefViewer.goToSlide (some 1) s ∧
    SlidefViewer.handleKeyPress SlidefViewer.Key.endKey s
      = SlidefViewer.goToSlide (some s.totalSlides) s := by
  refine ⟨?_, ?_, ?_, rfl, rfl, rfl, rfl, rfl⟩
  · intro h
    rcases h with h | h <;> simp [SlidefViewer.handleWheel, h]
  · intro h
    constructor <;> simp [SlidefViewer.handleKeyPress, h,
      SlidefViewer.closeOverviewModal]
  · intro h1 h2
    constructor <;> simp [SlidefViewer.handleKeyPress, h1, h2,
      SlidefViewer.closeShareModal]

/-- Witness for C2 (amended): in scroll mode a wheel event is ignored,
and with the overview modal open Escape closes it. -/
theorem c2_witness :
    SlidefViewer.handleWheel 5 (mkViewer (some 2) 10 [] true false false false)
      = mkViewer (some 2) 10 [] true false false false ∧
    SlidefViewer.handleKeyPress SlidefViewer.Key.escape
        (mkViewer (some 2) 10 [] false true false false)
      = SlidefViewer.closeOverviewModal
          (mkViewer (some 2) 10 [] false true false false) :=
  ⟨(c2_input_suppression _ 5).1 (Or.inl rfl),
   ((c2_input_suppression _ 0).2.1 rfl).1⟩

/-- C7: for a deck with `pageCount = 5` and `format = "png"`, the
metadata step yields exactly the URLs `slide-001.png … slide-005.png`;
with the initial `page` parameter absent, `init()` defaults to page 1
and the URL is rewritten to `page=1`. -/
theorem c7_metadata_and_default_page (base name : String)
    (title : Option String) (mp : Option String) (narrow : Bool) :
    SlidefViewer.slideImageList base name 5 (some "png")
      = [base ++ "/slides/" ++ name ++ "/images/slide-001.png",
         base ++ "/slides/" ++ name ++ "/images/slide-002.png",
         base ++ "/slides/" ++ name ++ "/images/slide-003.png",
         base ++ "/slides/" ++ name ++ "/images/slide-004.png",
         base ++ "/slides/" ++ name ++ "/images/slide-005.png"] ∧
    (SlidefViewer.initViewer none mp narrow base
        { name := name, title := title, pageCount := 5,
          format := some "png" }).currentSlide = some 1 ∧
    (SlidefViewer.initViewer none mp narrow base
        { name := name, title := title, pageCount := 5,
          format := some "png" }).urlPage = some "1" := by
  refine ⟨?_, ?_, ?_⟩
  · have h1 : padStart3 (toString (0 + 1)) = "001" := rfl
    have h2 : padStart3 (toString (1 + 1)) = "002" := rfl
    have h3 : padStart3 (toString (2 + 1)) = "003" := rfl
    have h4 : padStart3 (toString (3 + 1)) = "004" := rfl
    have h5 : padStart3 (toString (4 + 1)) = "005" := rfl
    simp [SlidefViewer.slideImageList, jsOrStr, List.range_succ,
      h1, h2, h3, h4, h5, String.append_assoc]
  · rw [initViewer_currentSlide]
    rfl
  · rw [initViewer_urlPage]
    rfl

/-! ### Theorems about `index.js` -/

/-- C6: after a failed import request, the recovery re-poll closes the
modal with no alert exactly when the listing re-fetch succeeds; and on
a failed re-fetch the blocking `Import failed` alert carrying the
original error message is shown, the form is restored for retry and
the progress pane hidden. -/
theorem c6_import_recovery (errMsg : String)
    (repoll : Except String (List SlideSummary)) (s : IndexState)
    (halert : s.alertMsg = none) :
    (((SlideIndex.importFailureRecovery errMsg repoll s).modalOpen = false ∧
       (SlideIndex.importFailureRecovery errMsg repoll s).alertMsg = none)
      ↔ (∃ l, repoll = Except.ok l)) ∧
    (∀ e, repoll = Except.error e →
      (SlideIndex.importFailureRecovery errMsg repoll s).alertMsg
        = some ("Import failed: " ++ errMsg) ∧
      (SlideIndex.importFailureRecovery errMsg repoll s).formVisible = true ∧
      (SlideIndex.importFailureRecovery errMsg repoll s).progressVisible = false) := by
  cases repoll with
  | ok l =>
      constructor
      · simp only [SlideIndex.importFailureRecovery, SlideIndex.renderSlides,
          SlideIndex.closeImportModal, SlideIndex.showEmptyState]
        split_ifs <;> simp [halert]
      · intro e he
        exact absurd he (by simp)
  | error e =>
      constructor
      · simp [SlideIndex.importFailureRecovery]
      · intro e' _
        simp [SlideIndex.importFailureRecovery]

/-- Witness for C6 at concrete states: the spec's scenario — the
request to import fails but the re-fetched listing (now holding a
previously absent deck) loads, so the modal closes with no alert — and
the failure branch, where a failed re-poll alerts `Import failed:
network error` and restores the form. -/
theorem c6_witness :
    ((SlideIndex.importFailureRecovery "network error"
        (Except.ok [{ name := "old" }, { name := "brand-new-deck" }])
        { modalOpen := true, formVisible := false, progressVisible := true,
          progressMessage := "Importing PDF...",
          renderedSlides := [{ name := "old" }], containerVisible := true,
          emptyStateVisible := false, alertMsg := none,
          isImporting := true }).modalOpen = false ∧
      (SlideIndex.importFailureRecovery "network error"
        (Except.ok [{ name := "old" }, { name := "brand-new-deck" }])
        { modalOpen := true, formVisible := false, progressVisible := true,
          progressMessage := "Importing PDF...",
          renderedSlides := [{ name := "old" }], containerVisible := true,
          emptyStateVisible := false, alertMsg := none,
          isImporting := true }).alertMsg = none) ∧
    (SlideIndex.importFailureRecovery "network error"
        (Except.error "server down")
        { modalOpen := true, formVisible := false, progressVisible := true,
          progressMessage := "Importing PDF...",
          renderedSlides := [{ name := "old" }], containerVisible := true,
          emptyStateVisible := false, alertMsg := none,
          isImporting := true }).alertMsg = some "Import failed: network error" ∧
    (SlideIndex.importFailureRecovery "network error"
        (Except.error "server down")
        { modalOpen := true, formVisible := false, progressVisible := true,
          progressMessage := "Importing PDF...",
          renderedSlides := [{ name := "old" }], containerVisible := true,
          emptyStateVisible := false, alertMsg := none,
          isImporting := true }).formVisible = true :=
  ⟨(c6_import_recovery "network error" _ _ rfl).1.mpr ⟨_, rfl⟩,
   ((c6_import_recovery "network error" _ _ rfl).2 "server down" rfl).1,
   ((c6_import_recovery "network error" _ _ rfl).2 "server down" rfl).2.1⟩

end Talks
